import Mathlib

/-!
Verification of the cross-cluster replication subsystem of the Cadence
history service: the per-shard replication task processor (watermarks,
DLQ projection, repair trigger, sync-shard forwarding) and the RPC
client factory's history-client construction.

The repository ships the task processor's test suite
(service/history/replication/task_processor_test.go) and the RPC client
factory (client package).  The task processor implementation itself is
not part of the sources, so its operations are modelled from the
specification; the client factory is translated from the source.

Go `int64` values are modelled as `Int` (the quantities involved are
message IDs, event IDs and byte sizes, far from the 64-bit boundary in
every behaviour considered here); Go strings as `String`.
-/

/-- Modelled from the spec: the per-task outcome of `processSingleTask`
(the implementation is not in the sources).  `success` is a clean apply,
`terminal` is the DLQ path (the task is still consumed and the watermark
advances past it), `transient` is a transient failure after exhausting
retries, which aborts the batch. -/
inductive TaskOutcome where
  | success
  | terminal
  | transient
deriving DecidableEq, Repr

/-- A history event as far as the DLQ projection needs it: `EventID` and
`Version` of the decoded event. -/
structure HistoryEvent where
  eventID : Int
  version : Int
deriving DecidableEq, Repr

/-- Modelled from the spec: the serialized event blob.  Serialization is
out of scope (storage layer), so a blob is modelled by the event list it
decodes to. -/
structure DataBlob where
  events : List HistoryEvent
deriving DecidableEq, Repr

/-- Modelled from the spec: the payload serializer's
`DeserializeBatchEvents` applied to a blob. -/
def deserializeBatchEvents (blob : DataBlob) : List HistoryEvent :=
  blob.events

/-- Attributes of a `SyncActivity` replication task (the fields the
processor reads: domain/workflow/run identifiers, scheduled ID,
failover version). -/
structure SyncActivityTaskAttributes where
  domainID : String
  workflowID : String
  runID : String
  scheduledID : Int
  version : Int
deriving DecidableEq, Repr

/-- Attributes of a `HistoryV2` replication task (the fields the
processor reads: identifiers and the serialized event blob). -/
structure HistoryTaskV2Attributes where
  domainID : String
  workflowID : String
  runID : String
  events : DataBlob
deriving DecidableEq, Repr

/-- Attributes of a `FailoverMarker` replication task. -/
structure FailoverMarkerAttributes where
  domainID : String
  version : Int
  creationTime : Int
deriving DecidableEq, Repr

/-- The tagged variant of replication task types. -/
inductive ReplicationTaskType where
  | syncActivity
  | historyV2
  | failoverMarker
  | syncWorkflowState
deriving DecidableEq, Repr

/-- A replication task: a monotone `sourceTaskID`, a task-type tag, and
type-specific attributes (present when the tag matches, as in the Go
struct where each attribute pointer may be nil). -/
structure ReplicationTask where
  taskType : ReplicationTaskType
  sourceTaskID : Int
  syncActivityTaskAttributes : Option SyncActivityTaskAttributes
  historyTaskV2Attributes : Option HistoryTaskV2Attributes
  failoverMarkerAttributes : Option FailoverMarkerAttributes
deriving DecidableEq, Repr

/-- Go getter semantics: a nil attribute pointer reads as the zero
value. -/
def defaultSyncActivityTaskAttributes : SyncActivityTaskAttributes :=
  { domainID := "", workflowID := "", runID := "", scheduledID := 0, version := 0 }

/-- Go getter semantics: a nil attribute pointer reads as the zero
value. -/
def defaultHistoryTaskV2Attributes : HistoryTaskV2Attributes :=
  { domainID := "", workflowID := "", runID := "", events := { events := [] } }

/-- Go getter semantics: a nil attribute pointer reads as the zero
value. -/
def defaultFailoverMarkerAttributes : FailoverMarkerAttributes :=
  { domainID := "", version := 0, creationTime := 0 }

/-- `GetSyncActivityTaskAttributes`. -/
def ReplicationTask.getSyncActivityTaskAttributes (t : ReplicationTask) :
    SyncActivityTaskAttributes :=
  t.syncActivityTaskAttributes.getD defaultSyncActivityTaskAttributes

/-- `GetHistoryTaskV2Attributes`. -/
def ReplicationTask.getHistoryTaskV2Attributes (t : ReplicationTask) :
    HistoryTaskV2Attributes :=
  t.historyTaskV2Attributes.getD defaultHistoryTaskV2Attributes

/-- `GetFailoverMarkerAttributes`. -/
def ReplicationTask.getFailoverMarkerAttributes (t : ReplicationTask) :
    FailoverMarkerAttributes :=
  t.failoverMarkerAttributes.getD defaultFailoverMarkerAttributes

/-- A replication task carrying `SyncActivity` attributes. -/
def mkSyncActivityTask (srcTaskID : Int) (attr : SyncActivityTaskAttributes) :
    ReplicationTask :=
  { taskType := ReplicationTaskType.syncActivity
    sourceTaskID := srcTaskID
    syncActivityTaskAttributes := some attr
    historyTaskV2Attributes := none
    failoverMarkerAttributes := none }

/-- A replication task carrying `HistoryV2` attributes. -/
def mkHistoryV2Task (srcTaskID : Int) (attr : HistoryTaskV2Attributes) :
    ReplicationTask :=
  { taskType := ReplicationTaskType.historyV2
    sourceTaskID := srcTaskID
    syncActivityTaskAttributes := none
    historyTaskV2Attributes := some attr
    failoverMarkerAttributes := none }

/-- The per-shard sync status piggybacked on a reply. -/
structure SyncShardStatus where
  timestamp : Int
deriving DecidableEq, Repr

/-- A batched reply routed back to one shard's processor: the ordered
tasks, the retrieved watermark, the optional sync-shard status and the
has-more flag. -/
structure ReplicationMessages where
  replicationTasks : List ReplicationTask
  lastRetrievedMessageID : Int
  syncShardStatus : Option SyncShardStatus
  hasMore : Bool
deriving DecidableEq, Repr

/-- The mutable watermark state of one task processor (one per
shard × source cluster): the processed and retrieved watermarks. -/
structure ProcState where
  lastProcessedMessageID : Int
  lastRetrievedMessageID : Int
deriving DecidableEq, Repr

/-- Modelled from the spec: `common.EmptyMessageID`, the watermark value
of a processor with no prior persisted state. -/
def emptyMessageID : Int := -1

/-- Modelled from the spec: the watermarks of a freshly created task
processor on a shard with no persisted replication ack levels. -/
def initialProcState : ProcState :=
  { lastProcessedMessageID := emptyMessageID
    lastRetrievedMessageID := emptyMessageID }

/-- Modelled from the spec: the per-task loop of `processResponse`.
Walks the reply's tasks in order; a `success` or `terminal` (DLQ)
outcome advances the processed watermark to the task's `sourceTaskID`
and continues; a `transient` outcome stops without advancing and aborts
the batch.  Returns the watermark after the loop and whether the whole
batch completed. -/
def runTasks (outcome : ReplicationTask → TaskOutcome) :
    Int → List ReplicationTask → Int × Bool
  | lp, [] => (lp, true)
  | lp, t :: ts =>
    match outcome t with
    | TaskOutcome.success => runTasks outcome t.sourceTaskID ts
    | TaskOutcome.terminal => runTasks outcome t.sourceTaskID ts
    | TaskOutcome.transient => (lp, false)

/-- Modelled from the spec: `processResponse` of the task processor
(task_processor.go is not in the sources).  It sets the retrieved
watermark to the reply's `lastRetrievedMessageID` unconditionally, runs
the per-task loop, and — as the repository's own test
`TestProcessResponse_NoTask` and the spec's empty-reply scenario pin
down — when the batch completes without a transient failure it also
moves the processed watermark up to the reply's
`lastRetrievedMessageID`. -/
def processResponse (outcome : ReplicationTask → TaskOutcome)
    (st : ProcState) (r : ReplicationMessages) : ProcState :=
  let res := runTasks outcome st.lastProcessedMessageID r.replicationTasks
  if res.2 = true then
    { lastProcessedMessageID := r.lastRetrievedMessageID
      lastRetrievedMessageID := r.lastRetrievedMessageID }
  else
    { lastProcessedMessageID := res.1
      lastRetrievedMessageID := r.lastRetrievedMessageID }

/-- The fetch token a processor puts on the fetcher's request channel:
its shard ID and both current watermarks. -/
structure ReplicationToken where
  shardID : Int
  lastProcessedMessageID : Int
  lastRetrievedMessageID : Int
deriving DecidableEq, Repr

/-- Modelled from the spec: `sendFetchMessageRequest` builds the token
from the processor's shard ID and current watermarks (the send itself is
the channel effect; the token is its payload). -/
def sendFetchMessageRequest (shardID : Int) (st : ProcState) : ReplicationToken :=
  { shardID := shardID
    lastProcessedMessageID := st.lastProcessedMessageID
    lastRetrievedMessageID := st.lastRetrievedMessageID }

/-- The request the executor forwards to the history engine for a
sync-shard status. -/
structure SyncShardStatusRequest where
  sourceCluster : String
  shardID : Int
  timestamp : Int
deriving DecidableEq, Repr

/-- Modelled from the spec: `handleSyncShardStatus` forwards a
`SyncShardStatusRequest{sourceCluster, shardID, timestamp}` to the
history engine and returns the engine's result; a nil status is a
no-op.  The engine is a parameter; the first component records the
request forwarded (none = no call). -/
def handleSyncShardStatus (engine : SyncShardStatusRequest → Except String Unit)
    (sourceCluster : String) (shardID : Int) (status : Option SyncShardStatus) :
    Option SyncShardStatusRequest × Except String Unit :=
  match status with
  | none => (none, Except.ok ())
  | some s =>
    let req : SyncShardStatusRequest :=
      { sourceCluster := sourceCluster, shardID := shardID, timestamp := s.timestamp }
    (some req, engine req)

/-- The persistence-layer task types used in DLQ records. -/
inductive PersistenceTaskType where
  | syncActivity
  | history
  | failoverMarker
deriving DecidableEq, Repr

/-- The persistence-layer projection of a replication task, as stored in
a DLQ record. -/
structure ReplicationTaskInfo where
  domainID : String
  workflowID : String
  runID : String
  taskType : PersistenceTaskType
  firstEventID : Int
  nextEventID : Int
  version : Int
  scheduledID : Int
deriving DecidableEq, Repr

/-- A DLQ write request: the configured source cluster plus the task
projection. -/
structure PutReplicationTaskToDLQRequest where
  sourceClusterName : String
  taskInfo : ReplicationTaskInfo
deriving DecidableEq, Repr

/-- Modelled from the spec: `generateDLQRequest` of the task processor
(task_processor.go is not in the sources).  Per task-type projection:
`SyncActivity` copies domain/workflow/run/scheduledID/version;
`HistoryV2` decodes the blob, fails on an empty event list, and takes
`firstEventID` and `version` from the first event with
`nextEventID := firstEventID + eventCount`; `FailoverMarker` copies
domainID and version.  Every request carries the processor's source
cluster. -/
def generateDLQRequest (sourceCluster : String) (task : ReplicationTask) :
    Except String PutReplicationTaskToDLQRequest :=
  match task.taskType with
  | ReplicationTaskType.syncActivity =>
    let attr := task.getSyncActivityTaskAttributes
    Except.ok
      { sourceClusterName := sourceCluster
        taskInfo :=
          { domainID := attr.domainID
            workflowID := attr.workflowID
            runID := attr.runID
            taskType := PersistenceTaskType.syncActivity
            firstEventID := 0
            nextEventID := 0
            version := attr.version
            scheduledID := attr.scheduledID } }
  | ReplicationTaskType.historyV2 =>
    let attr := task.getHistoryTaskV2Attributes
    match deserializeBatchEvents attr.events with
    | [] => Except.error ("encounter empty replication task")
    | firstEvent :: restEvents =>
      Except.ok
        { sourceClusterName := sourceCluster
          taskInfo :=
            { domainID := attr.domainID
              workflowID := attr.workflowID
              runID := attr.runID
              taskType := PersistenceTaskType.history
              firstEventID := firstEvent.eventID
              nextEventID :=
                firstEvent.eventID + ((firstEvent :: restEvents).length : Int)
              version := firstEvent.version
              scheduledID := 0 } }
  | ReplicationTaskType.failoverMarker =>
    let attr := task.getFailoverMarkerAttributes
    Except.ok
      { sourceClusterName := sourceCluster
        taskInfo :=
          { domainID := attr.domainID
            workflowID := ""
            runID := ""
            taskType := PersistenceTaskType.failoverMarker
            firstEventID := 0
            nextEventID := 0
            version := attr.version
            scheduledID := 0 } }
  | ReplicationTaskType.syncWorkflowState =>
    Except.error ("unknown replication task type")

/-- The cluster metadata cache as the processor uses it: the local
current cluster name and the failover-version-to-cluster routing. -/
structure ClusterMetadata where
  currentClusterName : String
  clusterNameForFailoverVersion : Int → String

/-- The execution tuple the repair workflow is signalled with. -/
structure Execution where
  domainID : String
  workflowID : String
  runID : String
  shardID : Int
deriving DecidableEq, Repr

/-- A JSON string literal. -/
def jsonString (s : String) : String :=
  "\"" ++ s ++ "\""

/-- Modelled from the spec: `json.Marshal` of the reconciliation
`Execution` entity (the entity package is not in the sources; field
names follow the spec's `Execution{domainID, workflowID, runID,
shardID}`). -/
def jsonMarshalExecution (e : Execution) : String :=
  "\x7b" ++ jsonString ("DomainID") ++ ":" ++ jsonString (e.domainID) ++ ","
    ++ jsonString ("WorkflowID") ++ ":" ++ jsonString (e.workflowID) ++ ","
    ++ jsonString ("RunID") ++ ":" ++ jsonString (e.runID) ++ ","
    ++ jsonString ("ShardID") ++ ":" ++ toString (e.shardID) ++ "\x7d"

/-- Modelled from the spec: `common.SystemLocalDomainName`, the system
local domain the repair workflow runs in. -/
def systemLocalDomainName : String := "cadence-system"

/-- Modelled from the spec: the data-corruption checker's well-known
workflow ID constant. -/
def checkDataCorruptionWorkflowID : String := "check-data-corruption-workflow"

/-- Modelled from the spec: the checker's well-known workflow type
constant. -/
def checkDataCorruptionWorkflowType : String := "check-data-corruption-workflow-type"

/-- Modelled from the spec: the checker's well-known task list
constant. -/
def checkDataCorruptionWorkflowTaskList : String := "check-data-corruption-task-list"

/-- Modelled from the spec: the checker's well-known signal name
constant. -/
def checkDataCorruptionWorkflowSignalName : String := "check-data-corruption-signal"

/-- Workflow ID reuse policies of the start-workflow API. -/
inductive WorkflowIDReusePolicy where
  | allowDuplicateFailedOnly
  | allowDuplicate
  | rejectDuplicate
  | terminateIfRunning
deriving DecidableEq, Repr

/-- The signal-with-start request sent to the frontend (the fields the
repair trigger sets). -/
structure SignalWithStartWorkflowExecutionRequest where
  domain : String
  workflowID : String
  workflowTypeName : String
  taskListName : String
  workflowIDReusePolicy : WorkflowIDReusePolicy
  signalName : String
  signalInput : String
deriving DecidableEq, Repr

/-- Modelled from the spec: the identifiers and failover version the
repair trigger derives from a task.  The spec pins the derivation down
for the attribute-carrying variants; for `SyncActivity` they come from
the sync-activity attributes. -/
def extractFixInfo (task : ReplicationTask) :
    Option (Int × String × String × String) :=
  match task.taskType with
  | ReplicationTaskType.syncActivity =>
    let attr := task.getSyncActivityTaskAttributes
    some (attr.version, attr.domainID, attr.workflowID, attr.runID)
  | _ => none

/-- Modelled from the spec: `triggerDataInconsistencyScan`
(task_processor.go is not in the sources).  Derives the failover
version from the task, routes it through the cluster metadata cache,
and when the responsible cluster is the local current cluster returns
the one `SignalWithStartWorkflowExecution` request issued to the system
local domain (none = no-op: remote owner or underivable task). -/
def triggerDataInconsistencyScan (meta : ClusterMetadata) (shardID : Int)
    (task : ReplicationTask) : Option SignalWithStartWorkflowExecutionRequest :=
  match extractFixInfo task with
  | none => none
  | some (failoverVersion, domainID, workflowID, runID) =>
    if meta.clusterNameForFailoverVersion failoverVersion = meta.currentClusterName then
      some
        { domain := systemLocalDomainName
          workflowID := checkDataCorruptionWorkflowID
          workflowTypeName := checkDataCorruptionWorkflowType
          taskListName := checkDataCorruptionWorkflowTaskList
          workflowIDReusePolicy := WorkflowIDReusePolicy.allowDuplicate
          signalName := checkDataCorruptionWorkflowSignalName
          signalInput :=
            jsonMarshalExecution
              { domainID := domainID, workflowID := workflowID
                runID := runID, shardID := shardID } }
    else none

/-- A reply is well formed for the state that requested it: the
retrieved watermark does not regress and every task in it lies between
the requested processed watermark and the reply's retrieved watermark
(the fetch protocol returns tasks after `lastProcessedMessageID` and
`lastRetrievedMessageID` is the highest ID in the reply). -/
def WellFormedReply (st : ProcState) (r : ReplicationMessages) : Prop :=
  st.lastRetrievedMessageID ≤ r.lastRetrievedMessageID ∧
    ∀ t ∈ r.replicationTasks,
      st.lastProcessedMessageID ≤ t.sourceTaskID ∧
        t.sourceTaskID ≤ r.lastRetrievedMessageID

/-- Modelled from the spec: one observable operation of a task
processor.  Only `processResponse` (on a well-formed reply) writes the
watermarks; `sendFetchMessageRequest` and `handleSyncShardStatus` read
the state without changing it. -/
inductive ProcStep : ProcState → ProcState → Prop where
  | response (outcome : ReplicationTask → TaskOutcome) (r : ReplicationMessages)
      (st : ProcState) (hwf : WellFormedReply st r) :
      ProcStep st (processResponse outcome st r)
  | fetchRequest (st : ProcState) : ProcStep st st
  | syncShard (st : ProcState) : ProcStep st st

/-- A state a task processor can reach from the fresh-shard initial
state by any sequence of its operations. -/
def Reachable (st : ProcState) : Prop :=
  Relation.ReflTransGen ProcStep initialProcState st

/-- The history client value built by the factory: the base client and
the optional decorators the factory wraps around it (error injection,
metrics), mirroring the construction order in the source. -/
inductive HistoryClient where
  | client (numberOfHistoryShards : Int) (maxSizeConfig : Int) (timeout : Int)
  | errorInjectionClient (inner : HistoryClient) (rate : Int)
  | metricClient (inner : HistoryClient)
deriving DecidableEq, Repr

/-- The state of `rpcClientFactory` that `NewHistoryClientWithTimeout`
reads: whether the membership monitor resolves the history service,
`rpcFactory.GetMaxMessageSize()`, the `GRPCMaxSizeInByte` dynamic-config
override (none = unset, so the getter yields its default, the supported
size), the `HistoryErrorInjectionRate` knob (a float64 in the source,
modelled as an integer rate; only zero versus non-zero matters to the
construction), the presence of a metrics client, and the shard count. -/
structure RpcClientFactory where
  keyResolverOk : Bool
  supportedMessageSize : Int
  grpcMaxSizeInByte : Option Int
  historyErrorInjectionRate : Int
  hasMetricsClient : Bool
  numberOfHistoryShards : Int
deriving DecidableEq, Repr

/-- The value of the `GRPCMaxSizeInByte` dynamic-config getter, whose
default is the RPC factory's supported maximum message size. -/
def grpcMaxSizeValue (cf : RpcClientFactory) : Int :=
  cf.grpcMaxSizeInByte.getD cf.supportedMessageSize

/-- `NewHistoryClientWithTimeout` of the RPC client factory: resolve the
history service, reject a configured `GRPCMaxSizeInByte` larger than the
supported maximum message size, otherwise build the client and wrap it
in the error-injection and metrics decorators when enabled. -/
def newHistoryClientWithTimeout (cf : RpcClientFactory) (timeout : Int) :
    Except String HistoryClient :=
  if cf.keyResolverOk = false then
    Except.error ("service resolver not available")
  else
    let supportedMessageSize := cf.supportedMessageSize
    let maxSizeConfig := grpcMaxSizeValue cf
    if maxSizeConfig > supportedMessageSize then
      Except.error
        ("GRPCMaxSizeInByte dynamic config value is larger than supported value")
    else
      let base := HistoryClient.client cf.numberOfHistoryShards maxSizeConfig timeout
      let withInjection :=
        if cf.historyErrorInjectionRate ≠ 0 then
          HistoryClient.errorInjectionClient base cf.historyErrorInjectionRate
        else base
      let withMetrics :=
        if cf.hasMetricsClient = true then
          HistoryClient.metricClient withInjection
        else withInjection
      Except.ok withMetrics

/-- The processed watermark after the per-task loop is either the value
it started from or the `sourceTaskID` of a task of the list whose
outcome was not transient. -/
theorem runTasks_fst_cases (outcome : ReplicationTask → TaskOutcome) :
    ∀ (l : List ReplicationTask) (lp : Int),
      (runTasks outcome lp l).1 = lp ∨
        ∃ t, t ∈ l ∧ outcome t ≠ TaskOutcome.transient ∧
          (runTasks outcome lp l).1 = t.sourceTaskID := by
  intro l
  induction l with
  | nil => intro lp; exact Or.inl rfl
  | cons t ts ih =>
    intro lp
    cases h : outcome t with
    | transient => left; simp [runTasks, h]
    | success =>
      rcases ih t.sourceTaskID with h1 | ⟨u, hu, hne, h2⟩
      · right
        exact ⟨t, List.mem_cons_self t ts, by simp [h], by simp [runTasks, h, h1]⟩
      · right
        exact ⟨u, List.mem_cons_of_mem t hu, hne, by simp [runTasks, h, h2]⟩
    | terminal =>
      rcases ih t.sourceTaskID with h1 | ⟨u, hu, hne, h2⟩
      · right
        exact ⟨t, List.mem_cons_self t ts, by simp [h], by simp [runTasks, h, h1]⟩
      · right
        exact ⟨u, List.mem_cons_of_mem t hu, hne, by simp [runTasks, h, h2]⟩

/-- The per-task loop completes when no task of the list has a
transient outcome. -/
theorem runTasks_complete (outcome : ReplicationTask → TaskOutcome) :
    ∀ (l : List ReplicationTask) (lp : Int),
      (∀ t ∈ l, outcome t ≠ TaskOutcome.transient) →
        (runTasks outcome lp l).2 = true := by
  intro l
  induction l with
  | nil => intro lp _; rfl
  | cons t ts ih =>
    intro lp h
    cases hout : outcome t with
    | transient => exact absurd hout (h t (List.mem_cons_self t ts))
    | success =>
      simpa [runTasks, hout] using
        ih t.sourceTaskID (fun u hu => h u (List.mem_cons_of_mem t hu))
    | terminal =>
      simpa [runTasks, hout] using
        ih t.sourceTaskID (fun u hu => h u (List.mem_cons_of_mem t hu))

/-- Helper: one processor operation keeps both watermarks non-decreasing
and preserves `lastProcessedMessageID ≤ lastRetrievedMessageID`. -/
theorem procStep_bounds (st st' : ProcState)
    (hinv : st.lastProcessedMessageID ≤ st.lastRetrievedMessageID)
    (hstep : ProcStep st st') :
    st.lastProcessedMessageID ≤ st'.lastProcessedMessageID ∧
      st.lastRetrievedMessageID ≤ st'.lastRetrievedMessageID ∧
      st'.lastProcessedMessageID ≤ st'.lastRetrievedMessageID := by
  cases hstep with
  | fetchRequest => exact ⟨le_refl _, le_refl _, hinv⟩
  | syncShard => exact ⟨le_refl _, le_refl _, hinv⟩
  | response outcome r _ hwf =>
    obtain ⟨hlr, htasks⟩ := hwf
    by_cases hc : (runTasks outcome st.lastProcessedMessageID r.replicationTasks).2 = true
    · refine ⟨?_, ?_, ?_⟩ <;> simp [processResponse, hc]
      · exact le_trans hinv hlr
      · exact hlr
    · rcases runTasks_fst_cases outcome r.replicationTasks st.lastProcessedMessageID with
        he | ⟨t, ht, _, he⟩
      · refine ⟨?_, ?_, ?_⟩ <;> simp [processResponse, hc, he]
        · exact hlr
        · exact le_trans hinv hlr
      · refine ⟨?_, ?_, ?_⟩ <;> simp [processResponse, hc, he]
        · exact (htasks t ht).1
        · exact hlr
        · exact (htasks t ht).2

/-- C1: for every reply `R` applied by a processor (a reply whose tasks
lie below `R.lastRetrievedMessageID`, issued against a processed
watermark not beyond it), after `processResponse(R)` completes the
retrieved watermark equals `R.lastRetrievedMessageID` — set
unconditionally, regardless of the tasks or their outcomes — and the
processed watermark is at most `R.lastRetrievedMessageID`. -/
theorem processResponse_sets_watermarks (outcome : ReplicationTask → TaskOutcome)
    (st : ProcState) (r : ReplicationMessages)
    (h1 : st.lastProcessedMessageID ≤ r.lastRetrievedMessageID)
    (h2 : ∀ t ∈ r.replicationTasks, t.sourceTaskID ≤ r.lastRetrievedMessageID) :
    (processResponse outcome st r).lastRetrievedMessageID = r.lastRetrievedMessageID ∧
      (processResponse outcome st r).lastProcessedMessageID ≤ r.lastRetrievedMessageID := by
  by_cases hc : (runTasks outcome st.lastProcessedMessageID r.replicationTasks).2 = true
  · constructor <;> simp [processResponse, hc]
  · rcases runTasks_fst_cases outcome r.replicationTasks st.lastProcessedMessageID with
      he | ⟨t, ht, _, he⟩
    · constructor <;> simp [processResponse, hc, he]
      exact h1
    · constructor <;> simp [processResponse, hc, he]
      exact h2 t ht

/-- Witness for C1 at the empty reply with retrieved watermark 100 from
the fresh state. -/
theorem processResponse_sets_watermarks_witness :
    (processResponse (fun _ => TaskOutcome.success) initialProcState
        { replicationTasks := [], lastRetrievedMessageID := 100
          syncShardStatus := none, hasMore := false }).lastRetrievedMessageID = 100 ∧
      (processResponse (fun _ => TaskOutcome.success) initialProcState
        { replicationTasks := [], lastRetrievedMessageID := 100
          syncShardStatus := none, hasMore := false }).lastProcessedMessageID ≤ 100 :=
  processResponse_sets_watermarks _ _ _ (by decide) (by simp)

/-- C2: a reply with an empty task list and retrieved watermark 100
moves the fresh processor's state to processed = retrieved = 100, the
processed watermark jumping to the retrieved one although no task was
applied (the repository's `TestProcessResponse_NoTask`). -/
theorem processResponse_emptyReply_state (outcome : ReplicationTask → TaskOutcome) :
    processResponse outcome initialProcState
      { replicationTasks := [], lastRetrievedMessageID := 100
        syncShardStatus := none, hasMore := false } =
      { lastProcessedMessageID := 100, lastRetrievedMessageID := 100 } := rfl

/-- C3 counterexample: with an empty task list no `processSingleTask`
call succeeds, yet `processResponse` advances the processed watermark
(from -1 to 100, exactly the repository's `TestProcessResponse_NoTask`),
so a step other than a successful task apply advances it. -/
theorem processResponse_advances_without_task :
    (processResponse (fun _ => TaskOutcome.success) initialProcState
        { replicationTasks := [], lastRetrievedMessageID := 100
          syncShardStatus := none, hasMore := false }).lastProcessedMessageID ≠
      initialProcState.lastProcessedMessageID := by decide

/-- C3 amended: the per-task loop advances the processed watermark to
`task.sourceTaskID` only for tasks that `processSingleTask` consumed
(no transient failure); additionally, when no task of the reply fails
transiently — in particular for an empty task list — `processResponse`
finally sets the processed watermark to the reply's
`lastRetrievedMessageID`; no other value is ever written to it. -/
theorem processResponse_lastProcessed_sources (outcome : ReplicationTask → TaskOutcome)
    (st : ProcState) (r : ReplicationMessages) :
    ((∀ t ∈ r.replicationTasks, outcome t ≠ TaskOutcome.transient) →
        (processResponse outcome st r).lastProcessedMessageID =
          r.lastRetrievedMessageID) ∧
      ((processResponse outcome st r).lastProcessedMessageID =
          st.lastProcessedMessageID ∨
        (processResponse outcome st r).lastProcessedMessageID =
          r.lastRetrievedMessageID ∨
        ∃ t, t ∈ r.replicationTasks ∧ outcome t ≠ TaskOutcome.transient ∧
          (processResponse outcome st r).lastProcessedMessageID = t.sourceTaskID) := by
  constructor
  · intro hall
    have hc := runTasks_complete outcome r.replicationTasks st.lastProcessedMessageID hall
    simp [processResponse, hc]
  · by_cases hc : (runTasks outcome st.lastProcessedMessageID r.replicationTasks).2 = true
    · right; left; simp [processResponse, hc]
    · rcases runTasks_fst_cases outcome r.replicationTasks st.lastProcessedMessageID with
        he | ⟨t, ht, hne, he⟩
      · left; simp [processResponse, hc, he]
      · right; right
        exact ⟨t, ht, hne, by simp [processResponse, hc, he]⟩

/-- Witness for the amended C3: an all-consumed (empty) reply ends with
the processed watermark at the reply's retrieved watermark. -/
theorem processResponse_lastProcessed_sources_witness :
    (processResponse (fun _ => TaskOutcome.terminal) initialProcState
        { replicationTasks := [], lastRetrievedMessageID := 7
          syncShardStatus := none, hasMore := false }).lastProcessedMessageID = 7 :=
  (processResponse_lastProcessed_sources _ _ _).1 (by simp)

/-- C4: at every reachable state of a task processor the processed
watermark is at most the retrieved watermark, and every operation from
a reachable state (processResponse on a well-formed reply,
sendFetchMessageRequest, handleSyncShardStatus) leaves both watermarks
non-decreasing. -/
theorem reachable_watermark_invariant (st : ProcState) (h : Reachable st) :
    st.lastProcessedMessageID ≤ st.lastRetrievedMessageID ∧
      ∀ st', ProcStep st st' →
        st.lastProcessedMessageID ≤ st'.lastProcessedMessageID ∧
          st.lastRetrievedMessageID ≤ st'.lastRetrievedMessageID := by
  have hinv : st.lastProcessedMessageID ≤ st.lastRetrievedMessageID := by
    induction h with
    | refl => exact le_refl _
    | tail _ hstep ih => exact (procStep_bounds _ _ ih hstep).2.2
  exact ⟨hinv, fun st' hstep =>
    ⟨(procStep_bounds st st' hinv hstep).1, (procStep_bounds st st' hinv hstep).2.1⟩⟩

/-- Witness for C4 at the initial state, reachable by the empty
execution. -/
theorem reachable_watermark_invariant_witness :
    initialProcState.lastProcessedMessageID ≤
        initialProcState.lastRetrievedMessageID ∧
      ∀ st', ProcStep initialProcState st' →
        initialProcState.lastProcessedMessageID ≤ st'.lastProcessedMessageID ∧
          initialProcState.lastRetrievedMessageID ≤ st'.lastRetrievedMessageID :=
  reachable_watermark_invariant initialProcState Relation.ReflTransGen.refl

/-- C5: for a `HistoryV2` replication task whose blob decodes to a
non-empty event list, `generateDLQRequest` yields a request carrying
the processor's source cluster whose task info has
`firstEventID = events[0].EventID`,
`nextEventID = firstEventID + len(events)`,
`version = events[0].Version` and task type History. -/
theorem generateDLQRequest_historyV2_projection (sourceCluster : String)
    (srcTaskID : Int) (attr : HistoryTaskV2Attributes)
    (e : HistoryEvent) (rest : List HistoryEvent)
    (h : deserializeBatchEvents attr.events = e :: rest) :
    generateDLQRequest sourceCluster (mkHistoryV2Task srcTaskID attr) = Except.ok
      { sourceClusterName := sourceCluster
        taskInfo :=
          { domainID := attr.domainID
            workflowID := attr.workflowID
            runID := attr.runID
            taskType := PersistenceTaskType.history
            firstEventID := e.eventID
            nextEventID := e.eventID + ((e :: rest).length : Int)
            version := e.version
            scheduledID := 0 } } := by
  simp [generateDLQRequest, mkHistoryV2Task,
    ReplicationTask.getHistoryTaskV2Attributes, h]

/-- Witness for C5 at the single-event blob of the repository's
`TestGenerateDLQRequest_ReplicationTaskTypeHistoryV2`. -/
theorem generateDLQRequest_historyV2_projection_witness :
    deserializeBatchEvents { events := [{ eventID := 1, version := 1 }] } =
        ({ eventID := 1, version := 1 } : HistoryEvent) :: [] ∧
      generateDLQRequest ("standby")
          (mkHistoryV2Task 0
            { domainID := "d1", workflowID := "w1", runID := "r1"
              events := { events := [{ eventID := 1, version := 1 }] } }) =
        Except.ok
          { sourceClusterName := "standby"
            taskInfo :=
              { domainID := "d1", workflowID := "w1", runID := "r1"
                taskType := PersistenceTaskType.history
                firstEventID := 1
                nextEventID :=
                  1 + ((({ eventID := 1, version := 1 } : HistoryEvent) :: []).length : Int)
                version := 1
                scheduledID := 0 } } :=
  ⟨rfl,
    generateDLQRequest_historyV2_projection ("standby") 0
      { domainID := "d1", workflowID := "w1", runID := "r1"
        events := { events := [{ eventID := 1, version := 1 }] } }
      { eventID := 1, version := 1 } [] rfl⟩

/-- C6: for a `SyncActivity` replication task, `generateDLQRequest`
yields a request carrying the processor's source cluster whose task
info copies the attributes' domainID, workflowID, runID, scheduledID
and version unchanged, with task type SyncActivity. -/
theorem generateDLQRequest_syncActivity_projection (sourceCluster : String)
    (srcTaskID : Int) (attr : SyncActivityTaskAttributes) :
    generateDLQRequest sourceCluster (mkSyncActivityTask srcTaskID attr) = Except.ok
      { sourceClusterName := sourceCluster
        taskInfo :=
          { domainID := attr.domainID
            workflowID := attr.workflowID
            runID := attr.runID
            taskType := PersistenceTaskType.syncActivity
            firstEventID := 0
            nextEventID := 0
            version := attr.version
            scheduledID := attr.scheduledID } } := rfl

/-- C7: for a corrupted task whose failover version maps to the local
current cluster, `triggerDataInconsistencyScan` issues exactly one
signal-with-start request (the returned `some`): to the system local
domain, with the CheckDataCorruption workflow ID, type, task list and
signal-name constants, reuse policy AllowDuplicate, and signal input
the JSON serialisation of `Execution{domainID, workflowID, runID,
shardID}` taken from the task and the shard. -/
theorem triggerDataInconsistencyScan_localCluster (meta : ClusterMetadata)
    (shardID srcTaskID : Int) (attr : SyncActivityTaskAttributes)
    (h : meta.clusterNameForFailoverVersion attr.version = meta.currentClusterName) :
    triggerDataInconsistencyScan meta shardID (mkSyncActivityTask srcTaskID attr) =
      some
        { domain := systemLocalDomainName
          workflowID := checkDataCorruptionWorkflowID
          workflowTypeName := checkDataCorruptionWorkflowType
          taskListName := checkDataCorruptionWorkflowTaskList
          workflowIDReusePolicy := WorkflowIDReusePolicy.allowDuplicate
          signalName := checkDataCorruptionWorkflowSignalName
          signalInput :=
            jsonMarshalExecution
              { domainID := attr.domainID, workflowID := attr.workflowID
                runID := attr.runID, shardID := shardID } } := by
  simp [triggerDataInconsistencyScan, extractFixInfo, mkSyncActivityTask,
    ReplicationTask.getSyncActivityTaskAttributes, h]

/-- Witness for C7 at the repository's
`TestTriggerDataInconsistencyScan_Success` configuration: version 100
routed to the current cluster. -/
theorem triggerDataInconsistencyScan_localCluster_witness :
    triggerDataInconsistencyScan
        { currentClusterName := "active"
          clusterNameForFailoverVersion := fun _ => "active" } 0
        (mkSyncActivityTask 0
          { domainID := "d2", workflowID := "w2", runID := "r2"
            scheduledID := 1, version := 100 }) =
      some
        { domain := systemLocalDomainName
          workflowID := checkDataCorruptionWorkflowID
          workflowTypeName := checkDataCorruptionWorkflowType
          taskListName := checkDataCorruptionWorkflowTaskList
          workflowIDReusePolicy := WorkflowIDReusePolicy.allowDuplicate
          signalName := checkDataCorruptionWorkflowSignalName
          signalInput :=
            jsonMarshalExecution
              { domainID := "d2", workflowID := "w2", runID := "r2", shardID := 0 } } :=
  triggerDataInconsistencyScan_localCluster _ _ _ _ rfl

/-- C8: with no prior state the first fetch token a processor sends
carries shard 0 and both watermarks -1. -/
theorem sendFetchMessageRequest_initial :
    sendFetchMessageRequest 0 initialProcState =
      { shardID := 0, lastProcessedMessageID := -1, lastRetrievedMessageID := -1 } := rfl

/-- C9: a `SyncShardStatus{timestamp = T}` received by a processor with
source cluster "standby" and shard 0 is forwarded to the history engine
as exactly one `SyncShardStatusRequest{sourceCluster = "standby",
shardID = 0, timestamp = T}`, and the engine's result (ok on success)
is returned. -/
theorem handleSyncShardStatus_forwards
    (engine : SyncShardStatusRequest → Except String Unit) (timestamp : Int) :
    handleSyncShardStatus engine ("standby") 0 (some { timestamp := timestamp }) =
      (some { sourceCluster := "standby", shardID := 0, timestamp := timestamp },
        engine { sourceCluster := "standby", shardID := 0, timestamp := timestamp }) := rfl

/-- C10: `NewHistoryClientWithTimeout` returns an error and no client
whenever the `GRPCMaxSizeInByte` dynamic-config value exceeds the RPC
factory's supported maximum message size, and a history client is
constructed only when the configured value does not exceed the
supported size. -/
theorem newHistoryClientWithTimeout_maxSizeGuard (cf : RpcClientFactory)
    (timeout : Int) :
    (grpcMaxSizeValue cf > cf.supportedMessageSize →
        ∃ e, newHistoryClientWithTimeout cf timeout = Except.error e) ∧
      ∀ c, newHistoryClientWithTimeout cf timeout = Except.ok c →
        grpcMaxSizeValue cf ≤ cf.supportedMessageSize := by
  constructor
  · intro hgt
    by_cases hk : cf.keyResolverOk = false
    · exact ⟨"service resolver not available",
        by simp [newHistoryClientWithTimeout, hk]⟩
    · exact
        ⟨"GRPCMaxSizeInByte dynamic config value is larger than supported value",
          by simp [newHistoryClientWithTimeout, hk, hgt]⟩
  · intro c hc
    by_contra hle
    have hgt : grpcMaxSizeValue cf > cf.supportedMessageSize := lt_of_not_le hle
    by_cases hk : cf.keyResolverOk = false
    · simp [newHistoryClientWithTimeout, hk] at hc
    · simp [newHistoryClientWithTimeout, hk, hgt] at hc

/-- Witness for C10: a configured 8 MiB limit against a 4 MiB supported
size is rejected. -/
theorem newHistoryClientWithTimeout_maxSizeGuard_witness :
    ∃ e, newHistoryClientWithTimeout
        { keyResolverOk := true, supportedMessageSize := 4194304
          grpcMaxSizeInByte := some 8388608, historyErrorInjectionRate := 0
          hasMetricsClient := true, numberOfHistoryShards := 16 } 0 =
      Except.error e :=
  (newHistoryClientWithTimeout_maxSizeGuard _ 0).1 (by decide)
